import Mathlib

/-!
Shallow embedding of the `ghcr` OCI-image uploader (src/ghcr.rs, src/oci/image.rs,
src/oci/schema.rs).  External libraries (SHA-256, gzip decompression, serde_json
serialization, valico schema validation) are modelled as components of a `Libs`
bundle; everything the repository itself computes is translated directly from
the Rust source.
-/

/-- JSON values, as built by the `json!` macro (serde_json). -/
inductive Json where
  | str : String → Json
  | num : Nat → Json
  | arr : List Json → Json
  | obj : List (String × Json) → Json

/-- Field lookup in a JSON object (first match). -/
def jsonField : Json → String → Option Json
  | Json.obj fields, k => (fields.find? (fun p => p.1 == k)).map Prod.snd
  | _, _ => none

/-- Element lookup in a JSON array. -/
def jsonIndex : Json → Nat → Option Json
  | Json.arr xs, i => xs.get? i
  | _, _ => none

/-- One valico validation error: `get_title()` (message) and `get_path()` (location). -/
structure ValicoErr where
  title : String
  path : String
deriving DecidableEq

/-- External collaborators of the program, abstracted as functions:
SHA-256 over byte sequences (`ring` and the `sha256` crate compute the same
function), gzip decompression (`flate2`), the chunk sequence produced by
successive `GzDecoder::read` calls, serde_json pretty serialization to UTF-8
bytes, and the valico validation outcome per schema URI and document.
`gzChunks_join` records the semantics of the streaming reader: the
concatenation of all chunks is the decompressed stream. -/
structure Libs where
  sha256bytes : List Nat → List Nat
  gzDecode : List Nat → List Nat
  gzChunks : List Nat → List (List Nat)
  serialize : Json → List Nat
  validationErrors : String → Json → List ValicoErr
  gzChunks_join : ∀ bs, (gzChunks bs).flatten = gzDecode bs

/-- Lowercase hex digit (as produced by the `sha256` crate's hex output). -/
def hexDigitLower (n : Nat) : Char :=
  if n < 10 then Char.ofNat (48 + n) else Char.ofNat (87 + n)

/-- Uppercase hex digit (as produced by `data_encoding::HEXUPPER`). -/
def hexDigitUpper (n : Nat) : Char :=
  if n < 10 then Char.ofNat (48 + n) else Char.ofNat (55 + n)

/-- Two lowercase hex digits of one byte. -/
def hexByteLower (b : Nat) : List Char :=
  [hexDigitLower (b / 16 % 16), hexDigitLower (b % 16)]

/-- Two uppercase hex digits of one byte. -/
def hexByteUpper (b : Nat) : List Char :=
  [hexDigitUpper (b / 16 % 16), hexDigitUpper (b % 16)]

/-- Lowercase hex encoding of a byte sequence. -/
def hexLower (bs : List Nat) : String :=
  String.mk ((bs.map hexByteLower).flatten)

/-- Uppercase hex encoding of a byte sequence (`HEXUPPER.encode`). -/
def hexUpper (bs : List Nat) : String :=
  String.mk ((bs.map hexByteUpper).flatten)

/-- Is this character a lowercase hex digit? -/
def isLowerHexChar (c : Char) : Bool :=
  (48 ≤ c.toNat && c.toNat ≤ 57) || (97 ≤ c.toNat && c.toNat ≤ 102)

/-- Is this string entirely lowercase hex? -/
def isLowerHexStr (s : String) : Bool :=
  s.data.all isLowerHexChar

/-- Is this a `sha256:`-prefixed lowercase hex digest string? -/
def isLowerHexDigest (s : String) : Bool :=
  match s.data with
  | 's' :: 'h' :: 'a' :: '2' :: '5' :: '6' :: ':' :: rest => rest.all isLowerHexChar
  | _ => false

/-- Filesystem operations the program performs, in order. -/
inductive FsOp where
  | removeDirAll : String → FsOp
  | createDir : String → FsOp
  | createDirAll : String → FsOp
  | writeFile : String → List Nat → FsOp

/-- Filesystem-and-stderr state: file contents (newest entry first), created
directories, the operation log, and the stderr lines printed so far. -/
structure St where
  files : List (String × List Nat)
  dirs : List String
  ops : List FsOp
  errLog : List String

def stEmpty : St := ⟨[], [], [], []⟩

/-- Contents at a path (latest write wins). -/
def fsLookup (files : List (String × List Nat)) (path : String) : Option (List Nat) :=
  (files.find? (fun e => e.1 == path)).map Prod.snd

def stWriteFile (st : St) (path : String) (content : List Nat) : St :=
  { st with files := (path, content) :: st.files,
            ops := st.ops ++ [FsOp.writeFile path content] }

def stCreateDir (st : St) (p : String) : St :=
  { st with dirs := p :: st.dirs, ops := st.ops ++ [FsOp.createDir p] }

def stCreateDirAll (st : St) (p : String) : St :=
  { st with dirs := p :: st.dirs, ops := st.ops ++ [FsOp.createDirAll p] }

/-- `fs::remove_dir_all`: drop the directory and everything under it. -/
def stRemoveDirAll (st : St) (p : String) : St :=
  { st with
    files := st.files.filter (fun e => !((p ++ "/").isPrefixOf e.1 || e.1 == p)),
    dirs := st.dirs.filter (fun d => !((p ++ "/").isPrefixOf d || d == p)),
    ops := st.ops ++ [FsOp.removeDirAll p] }

/-- `Path::exists` for the working root. -/
def stExists (st : St) (p : String) : Bool :=
  st.dirs.any (fun d => d == p) ||
    st.files.any (fun e => e.1 == p || (p ++ "/").isPrefixOf e.1)

/-- Lexicographic order on annotation entries (key first, then value). -/
def pairLe (a b : String × String) : Prop :=
  a.1 < b.1 ∨ (a.1 = b.1 ∧ a.2 ≤ b.2)

instance : DecidableRel pairLe := fun a b =>
  inferInstanceAs (Decidable (a.1 < b.1 ∨ (a.1 = b.1 ∧ a.2 ≤ b.2)))

instance : IsTotal (String × String) pairLe where
  total a b := by
    rcases lt_trichotomy a.1 b.1 with h | h | h
    · exact Or.inl (Or.inl h)
    · rcases le_total a.2 b.2 with h2 | h2
      · exact Or.inl (Or.inr ⟨h, h2⟩)
      · exact Or.inr (Or.inr ⟨h.symm, h2⟩)
    · exact Or.inr (Or.inl h)

instance : IsTrans (String × String) pairLe where
  trans a b c hab hbc := by
    rcases hab with h1 | ⟨h1, h1'⟩ <;> rcases hbc with h2 | ⟨h2, h2'⟩
    · exact Or.inl (lt_trans h1 h2)
    · exact Or.inl (h2 ▸ h1)
    · exact Or.inl (h1 ▸ h2)
    · exact Or.inr ⟨h1.trans h2, le_trans h1' h2'⟩

instance : IsAntisymm (String × String) pairLe where
  antisymm a b hab hba := by
    rcases hab with h1 | ⟨h1, h1'⟩
    · rcases hba with h2 | ⟨h2, h2'⟩
      · exact absurd (lt_trans h1 h2) (lt_irrefl _)
      · exact absurd h1 (h2 ▸ lt_irrefl _)
    · rcases hba with h2 | ⟨h2, h2'⟩
      · exact absurd h2 (h1 ▸ lt_irrefl _)
      · exact Prod.ext h1 (le_antisymm h1' h2')

/-- Sorted view of a key-value set: how serde_json's `Map` (a BTreeMap) orders
the entries of a serialized `HashMap`, independently of its iteration order. -/
def sortPairs (l : List (String × String)) : List (String × String) :=
  List.insertionSort pairLe l

theorem sortPairs_eq_of_perm {l₁ l₂ : List (String × String)} (h : l₁.Perm l₂) :
    sortPairs l₁ = sortPairs l₂ :=
  List.eq_of_perm_of_sorted
    ((List.perm_insertionSort pairLe l₁).trans
      (h.trans (List.perm_insertionSort pairLe l₂).symm))
    (List.sorted_insertionSort pairLe l₁)
    (List.sorted_insertionSort pairLe l₂)

/-- A Rust `HashMap<String, String>` as it enters a serde_json document:
its entries end up in the key-ordered `Map`, whatever the iteration order. -/
def annotsToJson (l : List (String × String)) : Json :=
  Json.obj ((sortPairs l).map (fun p => (p.1, Json.str p.2)))

theorem annotsToJson_congr {l₁ l₂ : List (String × String)} (h : l₁.Perm l₂) :
    annotsToJson l₁ = annotsToJson l₂ := by
  unfold annotsToJson
  rw [sortPairs_eq_of_perm h]

/-! ## src/oci/schema.rs -/

def imageConfigSchemaUri : String := "https://opencontainers.org/schema/image/config"

def imageIndexSchemaUri : String := "https://opencontainers.org/schema/image/index"

def imageLayoutSchemaUri : String := "https://opencontainers.org/schema/image/layout"

def imageManifestSchemaUri : String := "https://opencontainers.org/schema/image/manifest"

/-- `Schema::validate_schema`: run the valico validator; when invalid, print a
"Validation error"/"Instance path" line pair per violation to stderr and bail
with the fixed message. -/
def validateSchema (E : Libs) (schemaUrl : String) (j : Json) (st : St) :
    Except String Unit × St :=
  let errs := E.validationErrors schemaUrl j
  if errs.isEmpty then (Except.ok (), st)
  else
    (Except.error "JSON schema validation failed",
      { st with errLog := st.errLog ++
          errs.flatMap (fun e =>
            ["Validation error: " ++ e.title, "Instance path: " ++ e.path]) })

/-! ## src/oci/image.rs -/

/-- `Image::write_hash`: pretty-serialize the value, digest the serialized
string with `sha256::digest` (lowercase hex), write it at
`directory/<filename or digest>`, return the digest and the serialized length. -/
def writeHash (E : Libs) (directory : String) (hash : Json) (filename : Option String)
    (st : St) : (String × Nat) × St :=
  let jsonBytes := E.serialize hash
  let jsonSha256 := hexLower (E.sha256bytes jsonBytes)
  let fname := filename.getD jsonSha256
  ((jsonSha256, jsonBytes.length), stWriteFile st (directory ++ "/" ++ fname) jsonBytes)

/-- The fixed `oci-layout` document. -/
def ociLayoutJson : Json := Json.obj [("imageLayoutVersion", Json.str "1.0.0")]

/-- `Image::write_image_layout`. -/
def writeImageLayout (E : Libs) (root : String) (st : St) : Except String Unit × St :=
  match validateSchema E imageLayoutSchemaUri ociLayoutJson st with
  | (Except.error e, st') => (Except.error e, st')
  | (Except.ok _, st') =>
    (Except.ok (), (writeHash E root ociLayoutJson (some "oci-layout") st').2)

/-- `Image::write_tar_gz`: digest the archive file with `sha256::try_digest`
(lowercase hex) and copy its bytes to `blobs/<digest>`. -/
def writeTarGz (E : Libs) (uploadFileBytes : List Nat) (blobs : String) (st : St) :
    String × St :=
  let tarGzSha256 := hexLower (E.sha256bytes uploadFileBytes)
  (tarGzSha256, stWriteFile st (blobs ++ "/" ++ tarGzSha256) uploadFileBytes)

/-- The image config document built by `Image::write_image_config`. -/
def imageConfigJson (arch os tarSha256 : String) : Json :=
  Json.obj [("architecture", Json.str arch), ("os", Json.str os),
    ("rootfs", Json.obj [("type", Json.str "layers"),
      ("diff_ids", Json.arr [Json.str ("sha256:" ++ tarSha256)])])]

/-- `Image::write_image_config`. -/
def writeImageConfig (E : Libs) (arch os tarSha256 : String) (blobs : String) (st : St) :
    Except String (String × Nat) × St :=
  let imageConfig := imageConfigJson arch os tarSha256
  match validateSchema E imageConfigSchemaUri imageConfig st with
  | (Except.error e, st') => (Except.error e, st')
  | (Except.ok _, st') =>
    let r := writeHash E blobs imageConfig none st'
    (Except.ok r.1, r.2)

/-- `Image::write_image_manifest`. -/
def writeImageManifest (E : Libs) (imageManifest : Json) (blobs : String) (st : St) :
    Except String (String × Nat) × St :=
  match validateSchema E imageManifestSchemaUri imageManifest st with
  | (Except.error e, st') => (Except.error e, st')
  | (Except.ok _, st') =>
    let r := writeHash E blobs imageManifest none st'
    (Except.ok r.1, r.2)

/-- The image index document built by `Image::write_image_index`. -/
def imageIndexJson (manifests : List Json) (annotations : List (String × String)) : Json :=
  Json.obj [("schemaVersion", Json.num 2),
    ("manifests", Json.arr manifests),
    ("annotations", annotsToJson annotations)]

/-- `Image::write_image_index`. -/
def writeImageIndex (E : Libs) (manifests : List Json)
    (annotations : List (String × String)) (blobs : String) (st : St) :
    Except String (String × Nat) × St :=
  let imageIndex := imageIndexJson manifests annotations
  match validateSchema E imageIndexSchemaUri imageIndex st with
  | (Except.error e, st') => (Except.error e, st')
  | (Except.ok _, st') =>
    let r := writeHash E blobs imageIndex none st'
    (Except.ok r.1, r.2)

/-- The top-level `index.json` document built by `Image::write_index_json`. -/
def indexJsonDoc (indexJsonSha256 : String) (indexJsonSize : Nat)
    (annotations : List (String × String)) : Json :=
  Json.obj [("schemaVersion", Json.num 2),
    ("manifests", Json.arr [Json.obj [
      ("mediaType", Json.str "application/vnd.oci.image.index.v1+json"),
      ("digest", Json.str ("sha256:" ++ indexJsonSha256)),
      ("size", Json.num indexJsonSize),
      ("annotations", annotsToJson annotations)]])]

/-- `Image::write_index_json`. -/
def writeIndexJson (E : Libs) (indexJsonSha256 : String) (indexJsonSize : Nat)
    (root : String) (annotations : List (String × String)) (st : St) :
    Except String Unit × St :=
  let indexJson := indexJsonDoc indexJsonSha256 indexJsonSize annotations
  match validateSchema E imageIndexSchemaUri indexJson st with
  | (Except.error e, st') => (Except.error e, st')
  | (Except.ok _, st') =>
    (Except.ok (), (writeHash E root indexJson (some "index.json") st').2)

/-! ## src/ghcr.rs -/

/-- `Ghcr::check_existence`: `inspectSuccess` is the exit status of the external
`skopeo inspect` call; success means the image already exists. -/
def checkExistence (inspectSuccess : Bool) (name version : String) :
    Except String String :=
  if inspectSuccess then
    Except.error ("package already exists: " ++ name ++ ":" ++ version)
  else Except.ok name

/-- The accumulation loop of `Ghcr::sha256_digest`: `Context::update` per chunk. -/
def sha256DigestAux (ctx : List Nat) : List (List Nat) → List Nat
  | [] => ctx
  | c :: cs => sha256DigestAux (ctx ++ c) cs

/-- `Ghcr::sha256_digest`: stream the reader's chunks through a SHA-256
context and finish. -/
def sha256Digest (E : Libs) (chunks : List (List Nat)) : List Nat :=
  E.sha256bytes (sha256DigestAux [] chunks)

theorem sha256DigestAux_eq (ctx : List Nat) (chunks : List (List Nat)) :
    sha256DigestAux ctx chunks = ctx ++ chunks.flatten := by
  induction chunks generalizing ctx with
  | nil => simp [sha256DigestAux]
  | cons c cs ih => simp [sha256DigestAux, ih, List.append_assoc]

/-- The streaming digest of the decompressor's chunks is the digest of the
fully decompressed content. -/
theorem sha256Digest_gzChunks (E : Libs) (bs : List Nat) :
    sha256Digest E (E.gzChunks bs) = E.sha256bytes (E.gzDecode bs) := by
  unfold sha256Digest
  rw [sha256DigestAux_eq, List.nil_append, E.gzChunks_join]

/-- `image_name.replace("/", "-")`, character by character. -/
def sanitizeChars : List Char → List Char
  | [] => []
  | c :: cs => (if c = '/' then '-' else c) :: sanitizeChars cs

/-- The working-directory name: `format!("{}--{version}", image_name.replace("/", "-"))`. -/
def dirName (imageName version : String) : String :=
  String.mk (sanitizeChars imageName.data) ++ "--" ++ version

/-- The `package_annotations` map entries (`HashMap::from` literal). -/
def packageAnnotations (imageName version org : String) : List (String × String) :=
  [("com.github.package.type", "container"),
   ("org.opencontainers.image.ref.name", version),
   ("org.opencontainers.image.title", imageName),
   ("org.opencontainers.image.vendor", org),
   ("org.opencontainers.image.version", version)]

/-- The `descriptor_annotations` map entries. -/
def descriptorAnnotations (version : String) : List (String × String) :=
  [("org.opencontainers.image.ref.name", version)]

/-- The annotations map passed to `write_index_json`. -/
def refNameAnnotations (version : String) : List (String × String) :=
  [("org.opencontainers.image.ref.name", version)]

/-- The `image_manifest` document built inline in `upload_oci_image`. -/
def imageManifestJson (configJsonSha256 : String) (configJsonSize : Nat)
    (tarGzSha256 : String) (tarGzSize : Nat) (targetPath : String)
    (pkgAnnots : List (String × String)) : Json :=
  Json.obj [("schemaVersion", Json.num 2),
    ("config", Json.obj [
      ("mediaType", Json.str "application/vnd.oci.image.config.v1+json"),
      ("digest", Json.str ("sha256:" ++ configJsonSha256)),
      ("size", Json.num configJsonSize)]),
    ("layers", Json.arr [Json.obj [
      ("mediaType", Json.str "application/vnd.oci.image.layer.v1.tar+gzip"),
      ("digest", Json.str ("sha256:" ++ tarGzSha256)),
      ("size", Json.num tarGzSize),
      ("annotations", Json.obj [
        ("org.opencontainers.image.title", Json.str targetPath)])]]),
    ("annotations", annotsToJson pkgAnnots)]

/-- The single `manifests` entry built inline in `upload_oci_image`. -/
def manifestDescriptorJson (manifestJsonSha256 : String) (manifestJsonSize : Nat)
    (arch os : String) (descAnnots : List (String × String)) : Json :=
  Json.obj [("mediaType", Json.str "application/vnd.oci.image.manifest.v1+json"),
    ("digest", Json.str ("sha256:" ++ manifestJsonSha256)),
    ("size", Json.num manifestJsonSize),
    ("platform", Json.obj [("architecture", Json.str arch), ("os", Json.str os)]),
    ("annotations", annotsToJson descAnnots)]

/-- `Ghcr::upload_oci_image`.  `sh` models the iteration order of each
`HashMap` when it is handed to serde (the identity in a deterministic reading;
any permutation in reality); `inspectSuccess` is the skopeo inspect exit
status; `targetBytes` are the bytes of the archive at `targetPath`. -/
def uploadOciImage (E : Libs) (sh : List (String × String) → List (String × String))
    (inspectSuccess : Bool) (targetBytes : List Nat) (targetPath : String)
    (name version org : String) (st : St) : Except String Unit × St :=
  match checkExistence inspectSuccess name version with
  | Except.error e => (Except.error e, st)
  | Except.ok imageName =>
    let root := dirName imageName version
    let st1 := if stExists st root then stRemoveDirAll st root else st
    let st2 := stCreateDir st1 root
    match writeImageLayout E root st2 with
    | (Except.error e, st') => (Except.error e, st')
    | (Except.ok _, st3) =>
      let blobs := root ++ "/blobs/sha256"
      let st4 := stCreateDirAll st3 blobs
      let pkgA := packageAnnotations imageName version org
      let tg := writeTarGz E targetBytes blobs st4
      let tarGzSha256 := tg.1
      let st5 := tg.2
      let tarGzSize := targetBytes.length
      let tarSha256 := sha256Digest E (E.gzChunks targetBytes)
      match writeImageConfig E "amd64" "linux" (hexUpper tarSha256) blobs st5 with
      | (Except.error e, st') => (Except.error e, st')
      | (Except.ok cfg, st6) =>
        let descA := descriptorAnnotations version
        let imageManifest :=
          imageManifestJson cfg.1 cfg.2 tarGzSha256 tarGzSize targetPath (sh pkgA)
        match writeImageManifest E imageManifest blobs st6 with
        | (Except.error e, st') => (Except.error e, st')
        | (Except.ok mf, st7) =>
          let manifests := [manifestDescriptorJson mf.1 mf.2 "amd64" "linux" (sh descA)]
          match writeImageIndex E manifests (sh pkgA) blobs st7 with
          | (Except.error e, st') => (Except.error e, st')
          | (Except.ok ix, st8) =>
            match writeIndexJson E ix.1 ix.2 root (sh (refNameAnnotations version)) st8 with
            | (Except.error e, st') => (Except.error e, st')
            | (Except.ok _, st9) => (Except.ok (), st9)

/-! ## Derived values of a successful build (dataflow of `upload_oci_image`) -/

/-- The layer digest: SHA-256 of the archive file's bytes, lowercase hex. -/
def tarShaOf (E : Libs) (tb : List Nat) : String := hexLower (E.sha256bytes tb)

/-- The hex string passed to `write_image_config`: `HEXUPPER.encode` of the
streaming digest of the decompressed archive. -/
def diffIdHexOf (E : Libs) (tb : List Nat) : String :=
  hexUpper (sha256Digest E (E.gzChunks tb))

def configDocOf (E : Libs) (tb : List Nat) : Json :=
  imageConfigJson "amd64" "linux" (diffIdHexOf E tb)

def configShaOf (E : Libs) (tb : List Nat) : String :=
  hexLower (E.sha256bytes (E.serialize (configDocOf E tb)))

def configSizeOf (E : Libs) (tb : List Nat) : Nat :=
  (E.serialize (configDocOf E tb)).length

def manifestDocOf (E : Libs) (sh : List (String × String) → List (String × String))
    (tb : List Nat) (tp name version org : String) : Json :=
  imageManifestJson (configShaOf E tb) (configSizeOf E tb) (tarShaOf E tb)
    tb.length tp (sh (packageAnnotations name version org))

def manifestShaOf (E : Libs) (sh : List (String × String) → List (String × String))
    (tb : List Nat) (tp name version org : String) : String :=
  hexLower (E.sha256bytes (E.serialize (manifestDocOf E sh tb tp name version org)))

def manifestSizeOf (E : Libs) (sh : List (String × String) → List (String × String))
    (tb : List Nat) (tp name version org : String) : Nat :=
  (E.serialize (manifestDocOf E sh tb tp name version org)).length

def indexDocOf (E : Libs) (sh : List (String × String) → List (String × String))
    (tb : List Nat) (tp name version org : String) : Json :=
  imageIndexJson
    [manifestDescriptorJson (manifestShaOf E sh tb tp name version org)
      (manifestSizeOf E sh tb tp name version org) "amd64" "linux"
      (sh (descriptorAnnotations version))]
    (sh (packageAnnotations name version org))

def indexShaOf (E : Libs) (sh : List (String × String) → List (String × String))
    (tb : List Nat) (tp name version org : String) : String :=
  hexLower (E.sha256bytes (E.serialize (indexDocOf E sh tb tp name version org)))

def indexSizeOf (E : Libs) (sh : List (String × String) → List (String × String))
    (tb : List Nat) (tp name version org : String) : Nat :=
  (E.serialize (indexDocOf E sh tb tp name version org)).length

def indexJsonDocOf (E : Libs) (sh : List (String × String) → List (String × String))
    (tb : List Nat) (tp name version org : String) : Json :=
  indexJsonDoc (indexShaOf E sh tb tp name version org)
    (indexSizeOf E sh tb tp name version org) (sh (refNameAnnotations version))

/-- The state after a successful build from an empty filesystem. -/
def finalStateOf (E : Libs) (sh : List (String × String) → List (String × String))
    (tb : List Nat) (tp name version org : String) : St :=
  { files := [
      (dirName name version ++ "/" ++ "index.json",
        E.serialize (indexJsonDocOf E sh tb tp name version org)),
      (dirName name version ++ "/blobs/sha256" ++ "/" ++ indexShaOf E sh tb tp name version org,
        E.serialize (indexDocOf E sh tb tp name version org)),
      (dirName name version ++ "/blobs/sha256" ++ "/" ++ manifestShaOf E sh tb tp name version org,
        E.serialize (manifestDocOf E sh tb tp name version org)),
      (dirName name version ++ "/blobs/sha256" ++ "/" ++ configShaOf E tb,
        E.serialize (configDocOf E tb)),
      (dirName name version ++ "/blobs/sha256" ++ "/" ++ tarShaOf E tb, tb),
      (dirName name version ++ "/" ++ "oci-layout", E.serialize ociLayoutJson)],
    dirs := [dirName name version ++ "/blobs/sha256", dirName name version],
    ops := [FsOp.createDir (dirName name version),
      FsOp.writeFile (dirName name version ++ "/" ++ "oci-layout")
        (E.serialize ociLayoutJson),
      FsOp.createDirAll (dirName name version ++ "/blobs/sha256"),
      FsOp.writeFile (dirName name version ++ "/blobs/sha256" ++ "/" ++ tarShaOf E tb) tb,
      FsOp.writeFile (dirName name version ++ "/blobs/sha256" ++ "/" ++ configShaOf E tb)
        (E.serialize (configDocOf E tb)),
      FsOp.writeFile
        (dirName name version ++ "/blobs/sha256" ++ "/" ++ manifestShaOf E sh tb tp name version org)
        (E.serialize (manifestDocOf E sh tb tp name version org)),
      FsOp.writeFile
        (dirName name version ++ "/blobs/sha256" ++ "/" ++ indexShaOf E sh tb tp name version org)
        (E.serialize (indexDocOf E sh tb tp name version org)),
      FsOp.writeFile (dirName name version ++ "/" ++ "index.json")
        (E.serialize (indexJsonDocOf E sh tb tp name version org))],
    errLog := [] }

/-- Evaluation of a successful run: when every document passes validation,
`upload_oci_image` from an empty filesystem returns success and produces
exactly the six files, in this order. -/
theorem uploadEval (E : Libs) (sh : List (String × String) → List (String × String))
    (tb : List Nat) (tp name version org : String)
    (hval : ∀ u j, E.validationErrors u j = []) :
    uploadOciImage E sh false tb tp name version org stEmpty =
      (Except.ok (), finalStateOf E sh tb tp name version org) := by
  simp [uploadOciImage, checkExistence, stExists, stEmpty, writeImageLayout,
    writeTarGz, writeImageConfig, writeImageManifest, writeImageIndex,
    writeIndexJson, writeHash, validateSchema, hval, stWriteFile, stCreateDir,
    stCreateDirAll, finalStateOf, manifestDocOf, manifestShaOf, manifestSizeOf,
    indexDocOf, indexShaOf, indexSizeOf, indexJsonDocOf, configDocOf,
    configShaOf, configSizeOf, tarShaOf, diffIdHexOf]

/-! ## String and lookup helpers -/

theorem strEqIffData (a b : String) : a = b ↔ a.data = b.data := by
  constructor
  · intro h; rw [h]
  · intro h; cases a; cases b; exact congrArg String.mk h

theorem strDataAppend (a b : String) : (a ++ b).data = a.data ++ b.data := rfl

theorem fsLookup_cons_eq (k : String) (v : List Nat) (t : List (String × List Nat)) :
    fsLookup ((k, v) :: t) k = some v := by
  simp [fsLookup, List.find?]

theorem fsLookup_cons_ne {k k' : String} (h : k' ≠ k) (v : List Nat)
    (t : List (String × List Nat)) : fsLookup ((k, v) :: t) k' = fsLookup t k' := by
  simp only [fsLookup, List.find?]
  rw [show (k == k') = false from beq_eq_false_iff_ne.mpr (Ne.symm h)]

theorem blobPathNeIndexJson (r X : String) :
    r ++ "/blobs/sha256" ++ "/" ++ X ≠ r ++ "/" ++ "index.json" := by
  intro h
  rw [strEqIffData] at h
  simp only [strDataAppend, List.append_assoc] at h
  have h2 := List.append_cancel_left h
  simp at h2

theorem blobPathNeOciLayout (r X : String) :
    r ++ "/blobs/sha256" ++ "/" ++ X ≠ r ++ "/" ++ "oci-layout" := by
  intro h
  rw [strEqIffData] at h
  simp only [strDataAppend, List.append_assoc] at h
  have h2 := List.append_cancel_left h
  simp at h2

theorem indexJsonNeOciLayout (r : String) :
    r ++ "/" ++ "index.json" ≠ r ++ "/" ++ "oci-layout" := by
  intro h
  rw [strEqIffData] at h
  simp [strDataAppend, List.append_assoc] at h

theorem blobPathInj (r : String) {X Y : String} (h : X ≠ Y) :
    r ++ "/blobs/sha256" ++ "/" ++ X ≠ r ++ "/blobs/sha256" ++ "/" ++ Y := by
  intro he
  rw [strEqIffData] at he
  simp only [strDataAppend, List.append_assoc] at he
  have h2 := List.append_cancel_left (List.append_cancel_left (List.append_cancel_left he))
  exact h ((strEqIffData X Y).mpr h2)

/-! ## Claim theorems -/

/-- C5: when the external registry-client's inspect call exits with success
(the image already exists), `upload_oci_image` returns the ConflictError
"package already exists" and performs no filesystem operation at all: the
returned state is the input state, so a pre-existing working directory is left
untouched and no directory is removed or created. -/
theorem c5_conflict_no_fs_ops (E : Libs)
    (sh : List (String × String) → List (String × String)) (tb : List Nat)
    (tp name version org : String) (st : St) :
    uploadOciImage E sh true tb tp name version org st =
      (Except.error ("package already exists: " ++ name ++ ":" ++ version), st) := by
  simp [uploadOciImage, checkExistence]

theorem sanitizeChars_no_slash (l : List Char) : ∀ c ∈ sanitizeChars l, c ≠ '/' := by
  induction l with
  | nil => intro c hc; simp [sanitizeChars] at hc
  | cons a as ih =>
    intro c hc
    simp only [sanitizeChars, List.mem_cons] at hc
    rcases hc with h | h
    · subst h
      by_cases ha : a = '/'
      · simp [ha]
      · simp only [if_neg ha]; exact ha
    · exact ih c h

theorem sanitizeChars_eq_map (l : List Char) :
    sanitizeChars l = l.map (fun c => if c = '/' then '-' else c) := by
  induction l with
  | nil => rfl
  | cons a as ih => simp [sanitizeChars, ih]

theorem dirName_data (name version : String) :
    (dirName name version).data =
      sanitizeChars name.data ++ ('-' :: '-' :: version.data) := by
  show (String.mk (sanitizeChars name.data) ++ "--" ++ version).data = _
  simp only [strDataAppend, List.append_assoc]
  rfl

/-- C9: every '/' of the image name is replaced by '-' in the local
working-directory name, so (for a slash-free version tag) the directory name is
a single relative path component — it contains no separator and is neither `.`
nor `..` — and creating or removing it cannot traverse outside the intended
root. -/
theorem c9_sanitization (name version : String) :
    (∀ c ∈ sanitizeChars name.data, c ≠ '/') ∧
    ('/' ∉ version.data →
      '/' ∉ (dirName name version).data ∧
      dirName name version ≠ "." ∧ dirName name version ≠ "..") := by
  refine ⟨sanitizeChars_no_slash name.data, fun hv => ⟨?_, ?_, ?_⟩⟩
  · rw [dirName_data]
    intro h
    rcases List.mem_append.mp h with h | h
    · exact sanitizeChars_no_slash name.data _ h rfl
    · rcases h with _ | ⟨_, h⟩
      rcases h with _ | ⟨_, h⟩
      exact hv h
  · intro h
    have hd := (strEqIffData _ _).mp h
    rw [dirName_data] at hd
    have hl := congrArg List.length hd
    simp only [List.length_append, List.length_cons,
      show ("." : String).data = ['.'] from rfl, List.length_nil] at hl
    omega
  · intro h
    have hd := (strEqIffData _ _).mp h
    rw [dirName_data] at hd
    have hl := congrArg List.length hd
    simp only [List.length_append, List.length_cons,
      show (".." : String).data = ['.', '.'] from rfl, List.length_nil] at hl
    have h1 : sanitizeChars name.data = [] := List.length_eq_zero.mp (by omega)
    have h2 : version.data = [] := List.length_eq_zero.mp (by omega)
    rw [h1, h2] at hd
    exact absurd hd (by decide)

/-- C9 witness: for name `a/b` and version `1.0` the sanitized directory name
is the single component `a-b--1.0`. -/
theorem c9_sanitization_witness :
    '/' ∉ (dirName "a/b" "1.0").data ∧
    dirName "a/b" "1.0" ≠ "." ∧ dirName "a/b" "1.0" ≠ ".." ∧
    dirName "a/b" "1.0" = "a-b--1.0" := by
  have h := (c9_sanitization "a/b" "1.0").2 (by decide)
  exact ⟨h.1, h.2.1, h.2.2, by decide⟩

/-- C10: the working-directory name is exactly the image name with every '/'
replaced by '-', then the literal separator `--`, then the version string
verbatim — the version component is embedded unchanged. -/
theorem c10_dir_name_verbatim (name version : String) :
    (dirName name version).data =
      name.data.map (fun c => if c = '/' then '-' else c)
        ++ ('-' :: '-' :: version.data) := by
  rw [dirName_data, sanitizeChars_eq_map]

theorem validateSchema_err {E : Libs} {u : String} {j : Json}
    (h : E.validationErrors u j ≠ []) (st : St) :
    validateSchema E u j st =
      (Except.error "JSON schema validation failed",
        { st with errLog := st.errLog ++
            (E.validationErrors u j).flatMap (fun e =>
              ["Validation error: " ++ e.title, "Instance path: " ++ e.path]) }) := by
  cases hE : E.validationErrors u j with
  | nil => exact absurd hE h
  | cons a as => simp [validateSchema, hE]

/-- C1: each of the five document writers (layout marker, image config, image
manifest, image index, top-level index.json) validates its document against
the schema first; if validation reports any violation, the writer returns the
ValidationError and performs no `write_hash` — the filesystem contents and the
operation log are untouched, so the offending document never reaches the blob
store. -/
theorem c1_validation_gate (E : Libs) (st : St) (root blobs arch os tarSha : String)
    (manifestDoc : Json) (manifests : List Json)
    (annots idxAnnots : List (String × String)) (ixSha : String) (ixSize : Nat) :
    (E.validationErrors imageLayoutSchemaUri ociLayoutJson ≠ [] →
      (writeImageLayout E root st).1 = Except.error "JSON schema validation failed" ∧
      (writeImageLayout E root st).2.files = st.files ∧
      (writeImageLayout E root st).2.ops = st.ops) ∧
    (E.validationErrors imageConfigSchemaUri (imageConfigJson arch os tarSha) ≠ [] →
      (writeImageConfig E arch os tarSha blobs st).1 =
        Except.error "JSON schema validation failed" ∧
      (writeImageConfig E arch os tarSha blobs st).2.files = st.files ∧
      (writeImageConfig E arch os tarSha blobs st).2.ops = st.ops) ∧
    (E.validationErrors imageManifestSchemaUri manifestDoc ≠ [] →
      (writeImageManifest E manifestDoc blobs st).1 =
        Except.error "JSON schema validation failed" ∧
      (writeImageManifest E manifestDoc blobs st).2.files = st.files ∧
      (writeImageManifest E manifestDoc blobs st).2.ops = st.ops) ∧
    (E.validationErrors imageIndexSchemaUri (imageIndexJson manifests annots) ≠ [] →
      (writeImageIndex E manifests annots blobs st).1 =
        Except.error "JSON schema validation failed" ∧
      (writeImageIndex E manifests annots blobs st).2.files = st.files ∧
      (writeImageIndex E manifests annots blobs st).2.ops = st.ops) ∧
    (E.validationErrors imageIndexSchemaUri (indexJsonDoc ixSha ixSize idxAnnots) ≠ [] →
      (writeIndexJson E ixSha ixSize root idxAnnots st).1 =
        Except.error "JSON schema validation failed" ∧
      (writeIndexJson E ixSha ixSize root idxAnnots st).2.files = st.files ∧
      (writeIndexJson E ixSha ixSize root idxAnnots st).2.ops = st.ops) := by
  refine ⟨fun h => ?_, fun h => ?_, fun h => ?_, fun h => ?_, fun h => ?_⟩ <;>
    simp [writeImageLayout, writeImageConfig, writeImageManifest, writeImageIndex,
      writeIndexJson, validateSchema_err h]

/-- A `Libs` bundle whose validator rejects every document with one violation. -/
def rejectLibs : Libs where
  sha256bytes := fun bs => bs
  gzDecode := fun bs => bs
  gzChunks := fun bs => [bs]
  serialize := fun _ => []
  validationErrors := fun _ _ => [⟨"OneOf conditions are not met", "/"⟩]
  gzChunks_join := fun bs => by simp

/-- C1 witness: with a rejecting validator, each writer returns the
ValidationError and writes nothing. -/
theorem c1_validation_gate_witness :
    (writeImageLayout rejectLibs "r" stEmpty).1 =
      Except.error "JSON schema validation failed" ∧
    (writeImageLayout rejectLibs "r" stEmpty).2.files = [] ∧
    (writeImageConfig rejectLibs "amd64" "linux" "ab" "b" stEmpty).1 =
      Except.error "JSON schema validation failed" ∧
    (writeImageConfig rejectLibs "amd64" "linux" "ab" "b" stEmpty).2.files = [] ∧
    (writeImageManifest rejectLibs (Json.num 0) "b" stEmpty).1 =
      Except.error "JSON schema validation failed" ∧
    (writeImageIndex rejectLibs [] [] "b" stEmpty).1 =
      Except.error "JSON schema validation failed" ∧
    (writeIndexJson rejectLibs "s" 0 "r" [] stEmpty).1 =
      Except.error "JSON schema validation failed" := by
  have h := c1_validation_gate rejectLibs stEmpty "r" "b" "amd64" "linux" "ab"
    (Json.num 0) [] [] [] "s" 0
  have hne : ∀ u j, rejectLibs.validationErrors u j ≠ [] := fun u j => by
    simp [rejectLibs]
  exact ⟨(h.1 (hne _ _)).1, (h.1 (hne _ _)).2.1, (h.2.1 (hne _ _)).1,
    (h.2.1 (hne _ _)).2.1, (h.2.2.1 (hne _ _)).1, (h.2.2.2.1 (hne _ _)).1,
    (h.2.2.2.2 (hne _ _)).1⟩

/-- A `Libs` bundle whose validator reports two violations for any document. -/
def valTwoLibs : Libs :=
  { rejectLibs with validationErrors := fun _ _ =>
      [⟨"This property is required", "/rootfs"⟩,
       ⟨"Type of the value is wrong", "/os"⟩] }

/-- A `Libs` bundle whose validator reports one different violation. -/
def valOneLibs : Libs :=
  { rejectLibs with validationErrors := fun _ _ =>
      [⟨"Type of the value is wrong", "/architecture"⟩] }

/-- C8 counterexample: the error value `validate_schema` returns to the caller
is the fixed string "JSON schema validation failed" — two runs whose validators
report different violation lists return the identical error value, so the
returned error carries no (location, message) list at all; the violations are
only printed to stderr. -/
theorem c8_error_carries_no_violations :
    (validateSchema valTwoLibs imageConfigSchemaUri ociLayoutJson stEmpty).1 =
      (validateSchema valOneLibs imageConfigSchemaUri ociLayoutJson stEmpty).1 ∧
    valTwoLibs.validationErrors imageConfigSchemaUri ociLayoutJson ≠
      valOneLibs.validationErrors imageConfigSchemaUri ociLayoutJson ∧
    (validateSchema valTwoLibs imageConfigSchemaUri ociLayoutJson stEmpty).1 =
      Except.error "JSON schema validation failed" := by
  exact ⟨rfl, by decide, rfl⟩

/-- C8 amended: when validation fails, every violation found — not just the
first — is reported with its location and message as a pair of stderr lines,
and the error returned to the caller is the fixed ValidationError message. -/
theorem c8_violations_printed (E : Libs) (u : String) (j : Json) (st : St)
    (h : E.validationErrors u j ≠ []) :
    (validateSchema E u j st).1 = Except.error "JSON schema validation failed" ∧
    ∀ e ∈ E.validationErrors u j,
      ("Validation error: " ++ e.title) ∈ (validateSchema E u j st).2.errLog ∧
      ("Instance path: " ++ e.path) ∈ (validateSchema E u j st).2.errLog := by
  rw [validateSchema_err h]
  refine ⟨rfl, fun e he => ⟨?_, ?_⟩⟩ <;>
    · simp only [List.mem_append, List.mem_flatMap]
      exact Or.inr ⟨e, he, by simp⟩

/-- C8 amended witness: with two violations, both pairs of lines are printed. -/
theorem c8_violations_printed_witness :
    (validateSchema valTwoLibs imageConfigSchemaUri ociLayoutJson stEmpty).1 =
      Except.error "JSON schema validation failed" ∧
    ("Validation error: This property is required") ∈
      (validateSchema valTwoLibs imageConfigSchemaUri ociLayoutJson stEmpty).2.errLog ∧
    ("Instance path: /rootfs") ∈
      (validateSchema valTwoLibs imageConfigSchemaUri ociLayoutJson stEmpty).2.errLog ∧
    ("Validation error: Type of the value is wrong") ∈
      (validateSchema valTwoLibs imageConfigSchemaUri ociLayoutJson stEmpty).2.errLog ∧
    ("Instance path: /os") ∈
      (validateSchema valTwoLibs imageConfigSchemaUri ociLayoutJson stEmpty).2.errLog := by
  have h := c8_violations_printed valTwoLibs imageConfigSchemaUri ociLayoutJson stEmpty
    (by decide)
  exact ⟨h.1,
    (h.2 ⟨"This property is required", "/rootfs"⟩ (by decide)).1,
    (h.2 ⟨"This property is required", "/rootfs"⟩ (by decide)).2,
    (h.2 ⟨"Type of the value is wrong", "/os"⟩ (by decide)).1,
    (h.2 ⟨"Type of the value is wrong", "/os"⟩ (by decide)).2⟩

/-- A shallow but discriminating stand-in for serde serialization, used only to
instantiate `Libs.serialize` concretely in witnesses: it records the top-level
shape of the document. -/
def shallowKeys (j : Json) : List Nat :=
  match j with
  | Json.obj fs => fs.flatMap (fun p => p.1.data.map Char.toNat ++ [10])
  | Json.str s => s.data.map Char.toNat
  | Json.num n => [n]
  | Json.arr xs => [91, xs.length]

/-- A fully concrete `Libs` bundle for witnesses: identity hash and
decompression, the shallow encoder, and an always-passing validator. -/
def okLibs : Libs where
  sha256bytes := fun bs => bs
  gzDecode := fun bs => bs
  gzChunks := fun bs => [bs]
  serialize := shallowKeys
  validationErrors := fun _ _ => []
  gzChunks_join := fun bs => by simp

/-- Resolution of the six produced files in the final state, assuming the four
blob digests are pairwise distinct (SHA-256 collision freedom). -/
theorem finalStateLookups (E : Libs)
    (sh : List (String × String) → List (String × String)) (tb : List Nat)
    (tp name version org : String)
    (hTC : tarShaOf E tb ≠ configShaOf E tb)
    (hTM : tarShaOf E tb ≠ manifestShaOf E sh tb tp name version org)
    (hTI : tarShaOf E tb ≠ indexShaOf E sh tb tp name version org)
    (hCM : configShaOf E tb ≠ manifestShaOf E sh tb tp name version org)
    (hCI : configShaOf E tb ≠ indexShaOf E sh tb tp name version org)
    (hMI : manifestShaOf E sh tb tp name version org ≠
      indexShaOf E sh tb tp name version org) :
    fsLookup (finalStateOf E sh tb tp name version org).files
        (dirName name version ++ "/" ++ "index.json") =
      some (E.serialize (indexJsonDocOf E sh tb tp name version org)) ∧
    fsLookup (finalStateOf E sh tb tp name version org).files
        (dirName name version ++ "/blobs/sha256" ++ "/" ++
          indexShaOf E sh tb tp name version org) =
      some (E.serialize (indexDocOf E sh tb tp name version org)) ∧
    fsLookup (finalStateOf E sh tb tp name version org).files
        (dirName name version ++ "/blobs/sha256" ++ "/" ++
          manifestShaOf E sh tb tp name version org) =
      some (E.serialize (manifestDocOf E sh tb tp name version org)) ∧
    fsLookup (finalStateOf E sh tb tp name version org).files
        (dirName name version ++ "/blobs/sha256" ++ "/" ++ configShaOf E tb) =
      some (E.serialize (configDocOf E tb)) ∧
    fsLookup (finalStateOf E sh tb tp name version org).files
        (dirName name version ++ "/blobs/sha256" ++ "/" ++ tarShaOf E tb) =
      some tb ∧
    fsLookup (finalStateOf E sh tb tp name version org).files
        (dirName name version ++ "/" ++ "oci-layout") =
      some (E.serialize ociLayoutJson) := by
  refine ⟨?_, ?_, ?_, ?_, ?_, ?_⟩
  · exact fsLookup_cons_eq _ _ _
  · simp only [finalStateOf]
    rw [fsLookup_cons_ne (blobPathNeIndexJson _ _)]
    exact fsLookup_cons_eq _ _ _
  · simp only [finalStateOf]
    rw [fsLookup_cons_ne (blobPathNeIndexJson _ _),
      fsLookup_cons_ne (blobPathInj _ hMI)]
    exact fsLookup_cons_eq _ _ _
  · simp only [finalStateOf]
    rw [fsLookup_cons_ne (blobPathNeIndexJson _ _),
      fsLookup_cons_ne (blobPathInj _ hCI),
      fsLookup_cons_ne (blobPathInj _ hCM)]
    exact fsLookup_cons_eq _ _ _
  · simp only [finalStateOf]
    rw [fsLookup_cons_ne (blobPathNeIndexJson _ _),
      fsLookup_cons_ne (blobPathInj _ hTI),
      fsLookup_cons_ne (blobPathInj _ hTM),
      fsLookup_cons_ne (blobPathInj _ hTC)]
    exact fsLookup_cons_eq _ _ _
  · simp only [finalStateOf]
    rw [fsLookup_cons_ne (Ne.symm (indexJsonNeOciLayout _)),
      fsLookup_cons_ne (Ne.symm (blobPathNeOciLayout _ _)),
      fsLookup_cons_ne (Ne.symm (blobPathNeOciLayout _ _)),
      fsLookup_cons_ne (Ne.symm (blobPathNeOciLayout _ _)),
      fsLookup_cons_ne (Ne.symm (blobPathNeOciLayout _ _))]
    exact fsLookup_cons_eq _ _ _

/-- C6: the build is deterministic — for a fixed archive, name, version and
organization, two runs from an empty filesystem produce identical results
(same errors or the same six files, byte for byte), whatever iteration order
each run's HashMaps expose to serialization: serde's map sorts entries by key,
so any two permutations serialize identically. -/
theorem c6_determinism (E : Libs)
    (sh1 sh2 : List (String × String) → List (String × String))
    (h1 : ∀ l, (sh1 l).Perm l) (h2 : ∀ l, (sh2 l).Perm l)
    (tb : List Nat) (tp name version org : String) :
    uploadOciImage E sh1 false tb tp name version org stEmpty =
      uploadOciImage E sh2 false tb tp name version org stEmpty := by
  have e : ∀ l, annotsToJson (sh1 l) = annotsToJson (sh2 l) := fun l =>
    (annotsToJson_congr (h1 l)).trans (annotsToJson_congr (h2 l)).symm
  simp only [uploadOciImage, checkExistence, writeImageLayout, writeTarGz,
    writeImageConfig, writeImageManifest, writeImageIndex, writeIndexJson,
    imageManifestJson, manifestDescriptorJson, imageIndexJson, indexJsonDoc,
    writeHash, validateSchema]
  simp only [e]

/-- C6 witness: identity and reversal iteration orders produce the same build. -/
theorem c6_determinism_witness :
    uploadOciImage okLibs (fun l => l) false [0] "f.tar.gz" "n" "v" "o" stEmpty =
      uploadOciImage okLibs (fun l => l.reverse) false [0] "f.tar.gz" "n" "v" "o"
        stEmpty :=
  c6_determinism okLibs (fun l => l) (fun l => l.reverse)
    (fun l => List.Perm.refl l) (fun l => l.reverse_perm) [0] "f.tar.gz" "n" "v" "o"

/-- C2: digest correctness.  On a successful build (all validations pass; the
four blob digests pairwise distinct), the layer blob at
`blobs/sha256/<tarSha>` stores exactly the archive's bytes and the manifest's
layer descriptor records `sha256:` followed by the SHA-256 of those stored
bytes; the config blob's `diff_ids[0]` records the SHA-256 of the fully
decompressed archive content, computed by the streaming `GzDecoder` pass (in
the code's uppercase hex encoding). -/
theorem c2_digest_correctness (E : Libs)
    (sh : List (String × String) → List (String × String)) (tb : List Nat)
    (tp name version org : String)
    (hval : ∀ u j, E.validationErrors u j = [])
    (hTC : tarShaOf E tb ≠ configShaOf E tb)
    (hTM : tarShaOf E tb ≠ manifestShaOf E sh tb tp name version org)
    (hTI : tarShaOf E tb ≠ indexShaOf E sh tb tp name version org)
    (hCM : configShaOf E tb ≠ manifestShaOf E sh tb tp name version org)
    (hCI : configShaOf E tb ≠ indexShaOf E sh tb tp name version org)
    (hMI : manifestShaOf E sh tb tp name version org ≠
      indexShaOf E sh tb tp name version org) :
    (uploadOciImage E sh false tb tp name version org stEmpty).1 = Except.ok () ∧
    fsLookup (uploadOciImage E sh false tb tp name version org stEmpty).2.files
        (dirName name version ++ "/blobs/sha256" ++ "/" ++ tarShaOf E tb) =
      some tb ∧
    fsLookup (uploadOciImage E sh false tb tp name version org stEmpty).2.files
        (dirName name version ++ "/blobs/sha256" ++ "/" ++
          manifestShaOf E sh tb tp name version org) =
      some (E.serialize (manifestDocOf E sh tb tp name version org)) ∧
    ((jsonField (manifestDocOf E sh tb tp name version org) "layers").bind
        (fun l => jsonIndex l 0)).bind (fun d => jsonField d "digest") =
      some (Json.str ("sha256:" ++ hexLower (E.sha256bytes tb))) ∧
    fsLookup (uploadOciImage E sh false tb tp name version org stEmpty).2.files
        (dirName name version ++ "/blobs/sha256" ++ "/" ++ configShaOf E tb) =
      some (E.serialize (configDocOf E tb)) ∧
    ((jsonField (configDocOf E tb) "rootfs").bind
        (fun r => jsonField r "diff_ids")).bind (fun d => jsonIndex d 0) =
      some (Json.str ("sha256:" ++ hexUpper (E.sha256bytes (E.gzDecode tb)))) := by
  have hL := finalStateLookups E sh tb tp name version org hTC hTM hTI hCM hCI hMI
  rw [uploadEval E sh tb tp name version org hval]
  have hdiff : diffIdHexOf E tb = hexUpper (E.sha256bytes (E.gzDecode tb)) := by
    unfold diffIdHexOf
    rw [sha256Digest_gzChunks]
  refine ⟨rfl, hL.2.2.2.2.1, hL.2.2.1, rfl, hL.2.2.2.1, ?_⟩
  rw [← hdiff]
  rfl

/-- C2 witness: a concrete successful build with distinct digests. -/
theorem c2_digest_correctness_witness :
    (uploadOciImage okLibs (fun l => l) false [0] "f.tar.gz" "n" "v" "o" stEmpty).1 =
      Except.ok () ∧
    fsLookup
        (uploadOciImage okLibs (fun l => l) false [0] "f.tar.gz" "n" "v" "o"
          stEmpty).2.files
        (dirName "n" "v" ++ "/blobs/sha256" ++ "/" ++ tarShaOf okLibs [0]) =
      some [0] ∧
    ((jsonField (configDocOf okLibs [0]) "rootfs").bind
        (fun r => jsonField r "diff_ids")).bind (fun d => jsonIndex d 0) =
      some (Json.str ("sha256:" ++
        hexUpper (okLibs.sha256bytes (okLibs.gzDecode [0])))) := by
  have h := c2_digest_correctness okLibs (fun l => l) [0] "f.tar.gz" "n" "v" "o"
    (fun _ _ => rfl) (by decide) (by decide) (by decide) (by decide) (by decide)
    (by decide)
  exact ⟨h.1, h.2.1, h.2.2.2.2.2⟩

/-- C4: size correctness.  On a successful build, every descriptor's `size`
field equals the byte length of the exact content stored at its digest path:
the config descriptor's size is the length of the serialized config blob, the
layer descriptor's size is the length of the copied archive blob, the
manifest descriptor's size (in the image index) is the length of the
serialized manifest blob, and the index descriptor's size (in the top-level
index.json) is the length of the serialized index blob. -/
theorem c4_size_correctness (E : Libs)
    (sh : List (String × String) → List (String × String)) (tb : List Nat)
    (tp name version org : String)
    (hval : ∀ u j, E.validationErrors u j = [])
    (hTC : tarShaOf E tb ≠ configShaOf E tb)
    (hTM : tarShaOf E tb ≠ manifestShaOf E sh tb tp name version org)
    (hTI : tarShaOf E tb ≠ indexShaOf E sh tb tp name version org)
    (hCM : configShaOf E tb ≠ manifestShaOf E sh tb tp name version org)
    (hCI : configShaOf E tb ≠ indexShaOf E sh tb tp name version org)
    (hMI : manifestShaOf E sh tb tp name version org ≠
      indexShaOf E sh tb tp name version org) :
    (uploadOciImage E sh false tb tp name version org stEmpty).1 = Except.ok () ∧
    (fsLookup (uploadOciImage E sh false tb tp name version org stEmpty).2.files
        (dirName name version ++ "/blobs/sha256" ++ "/" ++ configShaOf E tb) =
      some (E.serialize (configDocOf E tb)) ∧
    (jsonField (manifestDocOf E sh tb tp name version org) "config").bind
        (fun c => jsonField c "size") =
      some (Json.num (E.serialize (configDocOf E tb)).length)) ∧
    (fsLookup (uploadOciImage E sh false tb tp name version org stEmpty).2.files
        (dirName name version ++ "/blobs/sha256" ++ "/" ++ tarShaOf E tb) =
      some tb ∧
    (((jsonField (manifestDocOf E sh tb tp name version org) "layers").bind
        (fun l => jsonIndex l 0)).bind (fun d => jsonField d "size") =
      some (Json.num tb.length))) ∧
    (fsLookup (uploadOciImage E sh false tb tp name version org stEmpty).2.files
        (dirName name version ++ "/blobs/sha256" ++ "/" ++
          manifestShaOf E sh tb tp name version org) =
      some (E.serialize (manifestDocOf E sh tb tp name version org)) ∧
    (((jsonField (indexDocOf E sh tb tp name version org) "manifests").bind
        (fun l => jsonIndex l 0)).bind (fun d => jsonField d "size") =
      some (Json.num
        (E.serialize (manifestDocOf E sh tb tp name version org)).length))) ∧
    (fsLookup (uploadOciImage E sh false tb tp name version org stEmpty).2.files
        (dirName name version ++ "/blobs/sha256" ++ "/" ++
          indexShaOf E sh tb tp name version org) =
      some (E.serialize (indexDocOf E sh tb tp name version org)) ∧
    (((jsonField (indexJsonDocOf E sh tb tp name version org) "manifests").bind
        (fun l => jsonIndex l 0)).bind (fun d => jsonField d "size") =
      some (Json.num
        (E.serialize (indexDocOf E sh tb tp name version org)).length))) := by
  have hL := finalStateLookups E sh tb tp name version org hTC hTM hTI hCM hCI hMI
  rw [uploadEval E sh tb tp name version org hval]
  exact ⟨rfl, ⟨hL.2.2.2.1, rfl⟩, ⟨hL.2.2.2.2.1, rfl⟩, ⟨hL.2.2.1, rfl⟩,
    ⟨hL.2.1, rfl⟩⟩

/-- C4 witness: a concrete successful build with distinct digests. -/
theorem c4_size_correctness_witness :
    (uploadOciImage okLibs (fun l => l) false [0] "f.tar.gz" "n" "v" "o" stEmpty).1 =
      Except.ok () ∧
    ((jsonField (manifestDocOf okLibs (fun l => l) [0] "f.tar.gz" "n" "v" "o")
        "config").bind (fun c => jsonField c "size") =
      some (Json.num (okLibs.serialize (configDocOf okLibs [0])).length)) ∧
    (((jsonField (manifestDocOf okLibs (fun l => l) [0] "f.tar.gz" "n" "v" "o")
        "layers").bind (fun l => jsonIndex l 0)).bind (fun d => jsonField d "size") =
      some (Json.num ([0] : List Nat).length)) := by
  have h := c4_size_correctness okLibs (fun l => l) [0] "f.tar.gz" "n" "v" "o"
    (fun _ _ => rfl) (by decide) (by decide) (by decide) (by decide) (by decide)
    (by decide)
  exact ⟨h.1, h.2.1.2, h.2.2.1.2⟩

/-- C7: round-trip.  On a successful build, the digest graph is walkable from
the root: `index.json` exists and its `manifests[0]` digest names the blob
holding the nested image index; that index's `manifests[0]` digest names the
blob holding the image manifest; and the manifest's `config` digest and
`layers[0]` digest name the blobs holding the config document and the raw
archive respectively. -/
theorem c7_round_trip (E : Libs)
    (sh : List (String × String) → List (String × String)) (tb : List Nat)
    (tp name version org : String)
    (hval : ∀ u j, E.validationErrors u j = [])
    (hTC : tarShaOf E tb ≠ configShaOf E tb)
    (hTM : tarShaOf E tb ≠ manifestShaOf E sh tb tp name version org)
    (hTI : tarShaOf E tb ≠ indexShaOf E sh tb tp name version org)
    (hCM : configShaOf E tb ≠ manifestShaOf E sh tb tp name version org)
    (hCI : configShaOf E tb ≠ indexShaOf E sh tb tp name version org)
    (hMI : manifestShaOf E sh tb tp name version org ≠
      indexShaOf E sh tb tp name version org) :
    (uploadOciImage E sh false tb tp name version org stEmpty).1 = Except.ok () ∧
    fsLookup (uploadOciImage E sh false tb tp name version org stEmpty).2.files
        (dirName name version ++ "/" ++ "index.json") =
      some (E.serialize (indexJsonDocOf E sh tb tp name version org)) ∧
    (((jsonField (indexJsonDocOf E sh tb tp name version org) "manifests").bind
        (fun l => jsonIndex l 0)).bind (fun d => jsonField d "digest") =
      some (Json.str ("sha256:" ++ indexShaOf E sh tb tp name version org)) ∧
    fsLookup (uploadOciImage E sh false tb tp name version org stEmpty).2.files
        (dirName name version ++ "/blobs/sha256" ++ "/" ++
          indexShaOf E sh tb tp name version org) =
      some (E.serialize (indexDocOf E sh tb tp name version org))) ∧
    (((jsonField (indexDocOf E sh tb tp name version org) "manifests").bind
        (fun l => jsonIndex l 0)).bind (fun d => jsonField d "digest") =
      some (Json.str ("sha256:" ++ manifestShaOf E sh tb tp name version org)) ∧
    fsLookup (uploadOciImage E sh false tb tp name version org stEmpty).2.files
        (dirName name version ++ "/blobs/sha256" ++ "/" ++
          manifestShaOf E sh tb tp name version org) =
      some (E.serialize (manifestDocOf E sh tb tp name version org))) ∧
    ((jsonField (manifestDocOf E sh tb tp name version org) "config").bind
        (fun c => jsonField c "digest") =
      some (Json.str ("sha256:" ++ configShaOf E tb)) ∧
    fsLookup (uploadOciImage E sh false tb tp name version org stEmpty).2.files
        (dirName name version ++ "/blobs/sha256" ++ "/" ++ configShaOf E tb) =
      some (E.serialize (configDocOf E tb))) ∧
    (((jsonField (manifestDocOf E sh tb tp name version org) "layers").bind
        (fun l => jsonIndex l 0)).bind (fun d => jsonField d "digest") =
      some (Json.str ("sha256:" ++ tarShaOf E tb)) ∧
    fsLookup (uploadOciImage E sh false tb tp name version org stEmpty).2.files
        (dirName name version ++ "/blobs/sha256" ++ "/" ++ tarShaOf E tb) =
      some tb) := by
  have hL := finalStateLookups E sh tb tp name version org hTC hTM hTI hCM hCI hMI
  rw [uploadEval E sh tb tp name version org hval]
  exact ⟨rfl, hL.1, ⟨rfl, hL.2.1⟩, ⟨rfl, hL.2.2.1⟩, ⟨rfl, hL.2.2.2.1⟩,
    ⟨rfl, hL.2.2.2.2.1⟩⟩

/-- C7 witness: a concrete successful build whose graph is walkable. -/
theorem c7_round_trip_witness :
    (uploadOciImage okLibs (fun l => l) false [0] "f.tar.gz" "n" "v" "o" stEmpty).1 =
      Except.ok () ∧
    fsLookup
        (uploadOciImage okLibs (fun l => l) false [0] "f.tar.gz" "n" "v" "o"
          stEmpty).2.files
        (dirName "n" "v" ++ "/" ++ "index.json") =
      some (okLibs.serialize
        (indexJsonDocOf okLibs (fun l => l) [0] "f.tar.gz" "n" "v" "o")) ∧
    fsLookup
        (uploadOciImage okLibs (fun l => l) false [0] "f.tar.gz" "n" "v" "o"
          stEmpty).2.files
        (dirName "n" "v" ++ "/blobs/sha256" ++ "/" ++
          indexShaOf okLibs (fun l => l) [0] "f.tar.gz" "n" "v" "o") =
      some (okLibs.serialize
        (indexDocOf okLibs (fun l => l) [0] "f.tar.gz" "n" "v" "o")) := by
  have h := c7_round_trip okLibs (fun l => l) [0] "f.tar.gz" "n" "v" "o"
    (fun _ _ => rfl) (by decide) (by decide) (by decide) (by decide) (by decide)
    (by decide)
  exact ⟨h.1, h.2.1, h.2.2.1.2⟩

/-- C3: the digest recorded in the config's `diff_ids[0]` is NOT lowercase hex
— `upload_oci_image` encodes the decompressed digest with
`data_encoding::HEXUPPER`, so for an archive whose decompressed content hashes
to a digest containing a nibble ≥ 10 (virtually every real SHA-256 digest) the
recorded value is uppercase.  Here, with the model hash and an archive whose
decompressed content is the single byte 0xAB, `diff_ids[0]` becomes
`sha256:AB`, which fails the lowercase-digest predicate, while the layer
digest produced by `sha256::digest` for the same build is lowercase and the
build still succeeds (the pinned config schema does not constrain the case of
`diff_ids` entries). -/
theorem c3_uppercase_diff_id :
    diffIdHexOf okLibs [171] = "AB" ∧
    ((jsonField (configDocOf okLibs [171]) "rootfs").bind
        (fun r => jsonField r "diff_ids")).bind (fun d => jsonIndex d 0) =
      some (Json.str "sha256:AB") ∧
    isLowerHexDigest "sha256:AB" = false ∧
    tarShaOf okLibs [171] = "ab" ∧
    isLowerHexStr (tarShaOf okLibs [171]) = true ∧
    isLowerHexStr (configShaOf okLibs [171]) = true ∧
    isLowerHexStr (manifestShaOf okLibs (fun l => l) [171] "f.tar.gz" "n" "v" "o") =
      true ∧
    isLowerHexStr (indexShaOf okLibs (fun l => l) [171] "f.tar.gz" "n" "v" "o") =
      true ∧
    (uploadOciImage okLibs (fun l => l) false [171] "f.tar.gz" "n" "v" "o"
        stEmpty).1 = Except.ok () := by
  refine ⟨by decide, rfl, by decide, by decide, by decide, by decide, by decide,
    by decide, ?_⟩
  rw [uploadEval okLibs (fun l => l) [171] "f.tar.gz" "n" "v" "o" (fun _ _ => rfl)]
